import Mathlib

/-!
Shallow embedding of the anime recommendation application (src/app.py) and of
its recommendation core as described by the specification.  The catalog rows,
the dataset cleaning performed by `load_data`, the recommendation-rendering
branch of `main`, and the Bookmark view are translated from src/app.py.  The
recommendation core itself (`build_model` and `recommend_anime` from
Model/rekomendasi.py) is not part of the provided sources and is modelled from
the specification where a claim needs it.
-/

/-! ## Data model -/

/-- A raw catalog row as read from the CSV by `pd.read_csv`.  Each cleaned
field is an `Option`: `none` stands for a missing cell (pandas NaN). -/
structure RawRow where
  title : String
  score : Option String
  genres : Option String
  synopsis_clean : Option String
  synopsis : Option String
  image_url : Option String
deriving Repr, DecidableEq, Inhabited

/-- A catalog row after the cleaning in `load_data` (src/app.py lines 17-40).
`score`, `genres`, `synopsis_clean` and `image_url` are total: the cleaning
substitutes defaults for missing values.  The `synopsis` column is not cleaned
by `load_data` and stays optional. -/
structure AnimeRow where
  title : String
  score : ℚ
  genres : String
  synopsis_clean : String
  synopsis : Option String
  image_url : String
deriving Repr, DecidableEq, Inhabited

/-! ## Dataset cleaning (`load_data`, src/app.py lines 17-40) -/

/-- The placeholder image URI used by `load_data` (src/app.py lines 27 and 31). -/
def placeholderImage : String := "https://via.placeholder.com/150x200?text=No+Image"

/-- Embeds `pd.to_numeric(df['score'], errors='coerce').fillna(0)` for one cell
(src/app.py line 23), parametrised by the numeric parser `parse` standing for
pandas' own number reader: a missing cell, or a cell the parser cannot read
(coerced to NaN), becomes 0. -/
def cleanScore (parse : String → Option ℚ) (x : Option String) : ℚ :=
  match x with
  | none => 0
  | some s => (parse s).getD 0

/-- Embeds `df['genres'].fillna('Unknown')` for one cell (src/app.py line 24). -/
def cleanGenres (x : Option String) : String := x.getD "Unknown"

/-- Embeds `df['synopsis_clean'].fillna('')` for one cell (src/app.py line 34). -/
def cleanSynopsis (x : Option String) : String := x.getD ""

/-- Python's `str.startswith`: the candidate prefix read off character by
character. -/
def startswith (s p : String) : Bool := p.toList.isPrefixOf s.toList

/-- Embeds the image cleaning of src/app.py lines 26-32 for one cell: a value is
kept exactly when `str(x).startswith('http')`; otherwise the placeholder is
substituted.  A missing cell (NaN) renders under `str` as `"nan"`, which does
not start with `"http"`, so it also becomes the placeholder; when the whole
column is absent it is created filled with the placeholder, which itself starts
with `"http"` and survives the subsequent `apply` unchanged. -/
def cleanImage (x : Option String) : String :=
  match x with
  | none => placeholderImage
  | some s => if startswith s "http" then s else placeholderImage

/-- One row of the cleaning performed by `load_data` (src/app.py lines 23-34). -/
def cleanRow (parse : String → Option ℚ) (r : RawRow) : AnimeRow :=
  { title := r.title
    score := cleanScore parse r.score
    genres := cleanGenres r.genres
    synopsis_clean := cleanSynopsis r.synopsis_clean
    synopsis := r.synopsis
    image_url := cleanImage r.image_url }

/-- Outcome of `load_data`: either the cleaned dataframe, or the fatal path
`st.error(...)` followed by `st.stop()`, which halts the script run. -/
inductive LoadOutcome (α : Type) where
  | ok (df : α)
  | fatalStop (msg : String)
deriving Repr, DecidableEq

/-- Embeds `load_data` (src/app.py lines 17-40).  `readCsv` stands for the
attempt to read `Dataset/anime_cleaned_token.csv`: `Except.error e` models any
exception raised while loading.  On success every row is cleaned; on failure
the error message is surfaced with `st.error` and the run stops (`st.stop`). -/
def load_data (parse : String → Option ℚ) (readCsv : Except String (List RawRow)) :
    LoadOutcome (List AnimeRow) :=
  match readCsv with
  | .ok rows => .ok (rows.map (cleanRow parse))
  | .error e => .fatalStop ("Gagal memuat dataset: " ++ e)

/-! ## Validity of absolute URI references (spec-side notion for C4) -/

/-- Characters allowed in a URI scheme after its first letter (RFC 3986:
ALPHA / DIGIT / "+" / "-" / "."). -/
def isSchemeChar (c : Char) : Bool :=
  c.isAlphanum || c == '+' || c == '-' || c == '.'

/-- After dropping the scheme characters, a valid absolute URI reference must
continue with the colon separating scheme from hier-part. -/
def startsWithColon : List Char → Bool
  | ':' :: _ => true
  | _ => false

/-- Modelled from the spec: the spec's notion of "a valid absolute URI
reference" (spec section 3, item field `image_reference`), which no code under
src/ computes.  Per RFC 3986 an absolute URI reference is
`scheme ":" hier-part ...` with `scheme = ALPHA *(ALPHA / DIGIT / "+" / "-" / ".")`:
the string must open with a letter and reach a colon right after its scheme
characters. -/
def isValidAbsoluteURI (s : String) : Bool :=
  match s.toList with
  | [] => false
  | c :: rest => c.isAlpha && startsWithColon (rest.dropWhile isSchemeChar)

/-- The image rule exactly as claim C4 words it: the placeholder whenever the
value is absent or not a valid absolute URI reference, the original value
otherwise. -/
def cleanImageClaim (x : Option String) : String :=
  match x with
  | none => placeholderImage
  | some s => if isValidAbsoluteURI s then s else placeholderImage

/-! ## Display cards and the Bookmark view (src/app.py lines 52-76, 173-197) -/

/-- The arguments `main` passes to `display_anime_card` for one rendered card
(src/app.py lines 52-76).  The `synopsis` argument stays optional: the card
itself substitutes a message when it is missing (lines 71-72). -/
structure Card where
  title : String
  genres : String
  score : ℚ
  similarity : ℚ
  synopsis : Option String
  image_url : String
deriving Repr, DecidableEq

/-- Embeds one iteration of the Bookmark display loop (src/app.py lines
189-195): `df[df['title'] == title]` filters the catalog by case-sensitive
exact title equality and `.iloc[0]` takes the first matching row; `none` models
the `IndexError` that `.iloc[0]` raises when no row matches.  The card is
rendered with the literal similarity `1.0` ("similarity dummy", line 193). -/
def bookmarkCard (df : List AnimeRow) (title : String) : Option Card :=
  (df.filter (fun r => r.title == title)).head?.map (fun a =>
    { title := a.title, genres := a.genres, score := a.score,
      similarity := 1, synopsis := a.synopsis, image_url := a.image_url })

/-- Embeds the whole Bookmark display loop (src/app.py lines 189-195): one card
attempt per stored bookmark title. -/
def bookmarkCards (df : List AnimeRow) (bookmarks : List String) : List (Option Card) :=
  bookmarks.map (bookmarkCard df)

/-! ## The recommendation core (Model/rekomendasi.py, modelled from the spec) -/

/-- Python's `str.lower()` (and pandas `.str.lower()`): every character
lowercased. -/
def lower (s : String) : String := String.mk (s.toList.map Char.toLower)

/-- Modelled from the spec: the not-found signal of `recommend_anime`
(Model/rekomendasi.py is not under src/).  Spec section 4.3 step 1 makes it a
distinct, user-displayable outcome, realised as a string value, which
src/app.py line 145 detects with `isinstance(recommendations, str)`. -/
def notFoundMessage : String := "Anime tidak ditemukan dalam database."

/-- Modelled from the spec: step 1 of `recommend_anime` (spec section 4.3,
Model/rekomendasi.py is not under src/), resolving a query title to a catalog
index by case-insensitive exact match on the title. -/
def resolveIndex (query : String) (df : List AnimeRow) : Option ℕ :=
  df.findIdx? (fun r => lower r.title == lower query)

/-- Modelled from the spec: `recommend_anime` of Model/rekomendasi.py, which is
not under src/ (spec section 4.3).  Step 1 resolves the query by
case-insensitive exact title match, signalling not-found by a string; step 2
reads the query item's row of the similarity matrix; step 3 ranks all other
items by descending similarity with a stable sort, ties keeping catalog order;
step 4 truncates to `top_n`.  Each returned entry pairs the item's metadata
with its similarity score. -/
def recommend_anime {α : Type} [LinearOrder α] (query : String) (mat : ℕ → ℕ → α)
    (df : List AnimeRow) (top_n : ℕ) : String ⊕ List (AnimeRow × α) :=
  match resolveIndex query df with
  | none => Sum.inl notFoundMessage
  | some idx =>
      let others := (List.range df.length).filter (fun j => j != idx)
      let scored := others.map (fun j => (df.getD j default, mat idx j))
      let ranked := scored.mergeSort (fun a b => decide (b.2 ≤ a.2))
      Sum.inr (ranked.take top_n)

/-- What `main` does with the value returned by `recommend_anime`: either a
warning or the rendered result list. -/
inductive RenderOutcome (α : Type) where
  | warning (msg : String)
  | results (rows : List (AnimeRow × α))
deriving Repr, DecidableEq

/-- Embeds src/app.py lines 145-171: when `recommend_anime` returned a string,
show it as a warning (`st.warning`); otherwise render each returned row as a
card. -/
def handleRecommendations {α : Type} (r : String ⊕ List (AnimeRow × α)) :
    RenderOutcome α :=
  match r with
  | Sum.inl s => .warning s
  | Sum.inr rows => .results rows

/-- Embeds src/app.py lines 148-149: the caller's lookup of the selected item's
metadata, `df[df['title'].str.lower() == selected_anime.lower()].iloc[0]`. -/
def selectedInfo (df : List AnimeRow) (query : String) : Option AnimeRow :=
  (df.filter (fun r => lower r.title == lower query)).head?

/-- Embeds the `st.slider` of src/app.py lines 127-134: the UI control only
yields values between `min_value = 1` and `max_value = 10`, so whatever
position is requested the delivered count lies in that range. -/
def sliderClamp (v : ℕ) : ℕ := max 1 (min v 10)

/-! ## Cosine similarity (`build_model` of Model/rekomendasi.py, modelled
from the spec) -/

/-- Dot product of two description vectors. -/
def dotProd (a b : List ℝ) : ℝ := (List.zipWith (· * ·) a b).sum

/-- Euclidean norm of a description vector. -/
noncomputable def vecNorm (a : List ℝ) : ℝ := Real.sqrt (dotProd a a)

/-- Modelled from the spec: the pairwise similarity computed by the Similarity
Matrix Builder inside `build_model` (Model/rekomendasi.py, not under src/):
cosine similarity `dot(a,b) / (norm(a) * norm(b))` (spec section 4.2), under
the real-division convention that a zero denominator yields 0 — exactly the
spec's rule that the similarity is 0 when either norm is 0. -/
noncomputable def cosineSim (a b : List ℝ) : ℝ :=
  dotProd a b / (vecNorm a * vecNorm b)

/-- Modelled from the spec: `build_model` (Model/rekomendasi.py, not under
src/) computes the all-pairs similarity matrix over the catalog's description
vectors (spec section 4.2); entry (i, j) is the cosine similarity of vectors
i and j. -/
noncomputable def build_model (vectors : List (List ℝ)) : ℕ → ℕ → ℝ :=
  fun i j => cosineSim (vectors.getD i []) (vectors.getD j [])

/-! ## Concrete rows for the closed witnesses -/

/-- A concrete catalog row used by the closed witnesses below. -/
def narutoRow : AnimeRow :=
  { title := "Naruto", score := 8, genres := "Action",
    synopsis_clean := "ninja", synopsis := some "ninja",
    image_url := placeholderImage }

/-- A second concrete catalog row used by the closed witnesses below. -/
def sasukeRow : AnimeRow :=
  { title := "Sasuke", score := 7, genres := "Action",
    synopsis_clean := "ninja rival", synopsis := none,
    image_url := placeholderImage }

/-! ## Theorems -/

/-- C3: every catalog row loaded by `load_data` has its missing or unparseable
fields replaced by defaults: a missing or non-numeric score becomes 0, a
missing genres field becomes "Unknown", and a missing `synopsis_clean` becomes
the empty string, for every numeric parser pandas may implement. -/
theorem C3_defaults (parse : String → Option ℚ) (r : RawRow) :
    ((r.score = none ∨ ∃ s, r.score = some s ∧ parse s = none) →
      (cleanRow parse r).score = 0) ∧
    (r.genres = none → (cleanRow parse r).genres = "Unknown") ∧
    (r.synopsis_clean = none → (cleanRow parse r).synopsis_clean = "") := by
  refine ⟨fun h => ?_, fun h => ?_, fun h => ?_⟩
  · rcases h with h | ⟨s, hs, hp⟩
    · simp [cleanRow, cleanScore, h]
    · simp [cleanRow, cleanScore, hs, hp]
  · simp [cleanRow, cleanGenres, h]
  · simp [cleanRow, cleanSynopsis, h]

/-- Witness for C3 at a fully missing row and a parser that rejects its cell. -/
theorem C3_defaults_witness :
    (cleanRow (fun _ => none)
      { title := "X", score := some "oops", genres := none,
        synopsis_clean := none, synopsis := none, image_url := none }).score = 0 ∧
    (cleanRow (fun _ => none)
      { title := "X", score := some "oops", genres := none,
        synopsis_clean := none, synopsis := none, image_url := none }).genres = "Unknown" ∧
    (cleanRow (fun _ => none)
      { title := "X", score := some "oops", genres := none,
        synopsis_clean := none, synopsis := none, image_url := none }).synopsis_clean = "" := by
  obtain ⟨h1, h2, h3⟩ := C3_defaults (fun _ => none)
    { title := "X", score := some "oops", genres := none,
      synopsis_clean := none, synopsis := none, image_url := none }
  exact ⟨h1 (Or.inr ⟨"oops", rfl, rfl⟩), h2 rfl, h3 rfl⟩

/-- C4 counterexample: the string "httpgarbage" is not a valid absolute URI
reference (it has no colon, hence no scheme separator), so the claim requires
the placeholder, yet `load_data` keeps it unchanged because it starts with
"http". -/
theorem C4_counterexample :
    cleanImage (some "httpgarbage") = "httpgarbage" ∧
    isValidAbsoluteURI "httpgarbage" = false ∧
    cleanImageClaim (some "httpgarbage") = placeholderImage ∧
    cleanImage (some "httpgarbage") ≠ cleanImageClaim (some "httpgarbage") := by
  refine ⟨rfl, by decide, by decide, by decide⟩

/-- C4 amended: the image reference is replaced by the placeholder URI whenever
it is absent or its string form does not start with "http"; otherwise the
original value is kept unchanged. -/
theorem C4_amended_rule (x : Option String) :
    (x = none → cleanImage x = placeholderImage) ∧
    (∀ s, x = some s → startswith s "http" = false → cleanImage x = placeholderImage) ∧
    (∀ s, x = some s → startswith s "http" = true → cleanImage x = s) := by
  refine ⟨fun h => ?_, fun s hs hf => ?_, fun s hs ht => ?_⟩
  · simp [cleanImage, h]
  · simp [cleanImage, hs, hf]
  · simp [cleanImage, hs, ht]

/-- Witness for C4's amended rule at a kept value, a replaced value and a
missing cell. -/
theorem C4_amended_rule_witness :
    cleanImage none = placeholderImage ∧
    cleanImage (some "not a uri") = placeholderImage ∧
    cleanImage (some "http://img.example/x.png") = "http://img.example/x.png" := by
  refine ⟨(C4_amended_rule none).1 rfl,
    (C4_amended_rule (some "not a uri")).2.1 "not a uri" rfl (by decide),
    (C4_amended_rule (some "http://img.example/x.png")).2.2
      "http://img.example/x.png" rfl (by decide)⟩

/-- C8: any exception while loading the dataset is fatal at startup: the error
is surfaced (`st.error`) and the run stops (`st.stop`); the failure is never
converted into a successful dataframe. -/
theorem C8_fatal_load (parse : String → Option ℚ) (e : String) :
    load_data parse (.error e) = .fatalStop ("Gagal memuat dataset: " ++ e) ∧
    ∀ rows, load_data parse (.error e) ≠ .ok rows := by
  refine ⟨rfl, fun rows h => ?_⟩
  simp [load_data] at h

/-- Witness for C8 at a concrete exception message. -/
theorem C8_fatal_load_witness :
    load_data (fun _ => none) (.error "FileNotFoundError") =
      .fatalStop "Gagal memuat dataset: FileNotFoundError" ∧
    load_data (fun _ => none) (.error "FileNotFoundError") ≠ .ok [] :=
  ⟨(C8_fatal_load (fun _ => none) "FileNotFoundError").1,
   (C8_fatal_load (fun _ => none) "FileNotFoundError").2 []⟩

/-- C1: a query matching no catalog title case-insensitively makes
`recommend_anime` return the distinct, user-displayable not-found string —
never a successful (possibly empty) result list — and the caller turns exactly
that string into a warning rather than an exception. -/
theorem C1_not_found {α : Type} [LinearOrder α] (query : String) (mat : ℕ → ℕ → α)
    (df : List AnimeRow) (top_n : ℕ)
    (h : ∀ r ∈ df, lower r.title ≠ lower query) :
    recommend_anime query mat df top_n = Sum.inl notFoundMessage ∧
    (∀ rows, recommend_anime query mat df top_n ≠ Sum.inr rows) ∧
    handleRecommendations (recommend_anime query mat df top_n) =
      RenderOutcome.warning notFoundMessage := by
  have hr : resolveIndex query df = none := by
    rw [resolveIndex, List.findIdx?_eq_none_iff]
    intro r hrr
    simpa using h r hrr
  refine ⟨?_, ?_, ?_⟩ <;> simp [recommend_anime, hr, handleRecommendations]

/-- Witness for C1: a query matching nothing in a one-row catalog yields the
not-found signal. -/
theorem C1_not_found_witness :
    recommend_anime "Nonexistent Title XYZ" (fun _ _ => (0 : ℚ)) [narutoRow] 5 =
      Sum.inl notFoundMessage :=
  (C1_not_found "Nonexistent Title XYZ" (fun _ _ => (0 : ℚ)) [narutoRow] 5
    (by decide)).1

/-- C9: in the Bookmark view, every bookmarked item is displayed with the
constant similarity 1.0, whatever the catalog and the bookmark list. -/
theorem C9_bookmark_similarity_one (df : List AnimeRow) (bookmarks : List String)
    (c : Option Card) (hc : c ∈ bookmarkCards df bookmarks) (card : Card)
    (hcard : c = some card) : card.similarity = 1 := by
  rcases List.mem_map.mp hc with ⟨t, _, rfl⟩
  rw [bookmarkCard] at hcard
  rcases Option.map_eq_some'.mp hcard with ⟨a, _, hfa⟩
  rw [← hfa]

/-- Witness for C9: the single bookmarked row renders with similarity 1. -/
theorem C9_bookmark_similarity_one_witness :
    (⟨"Naruto", "Action", 8, 1, some "ninja", placeholderImage⟩ : Card).similarity = 1 :=
  C9_bookmark_similarity_one [narutoRow] ["Naruto"]
    (some ⟨"Naruto", "Action", 8, 1, some "ninja", placeholderImage⟩)
    (by decide) _ rfl

/-- C10: the Bookmark view resolves a stored title by case-sensitive exact
equality and takes the first matching row unconditionally; a bookmarked title
differing from every catalog title (even only in case) matches no row and the
lookup fails (`iloc[0]` raises `IndexError`, modelled by `none`) instead of
degrading gracefully. -/
theorem C10_bookmark_case_sensitive :
    (∀ (dfa dfb : List AnimeRow) (r : AnimeRow) (t : String),
        (∀ x ∈ dfa, x.title ≠ t) → r.title = t →
        ∃ c, bookmarkCard (dfa ++ r :: dfb) t = some c ∧ c.title = t) ∧
    (∀ (df : List AnimeRow) (t : String),
        bookmarkCard df t = none ↔ ∀ r ∈ df, r.title ≠ t) ∧
    bookmarkCard [narutoRow] "naruto" = none := by
  refine ⟨?_, ?_, by decide⟩
  · intro dfa dfb r t hnone hrt
    have h1 : dfa.filter (fun x => x.title == t) = [] :=
      List.filter_eq_nil_iff.mpr (fun x hx => by simp [hnone x hx])
    have hfil : (dfa ++ r :: dfb).filter (fun x => x.title == t) =
        r :: dfb.filter (fun x => x.title == t) := by
      rw [List.filter_append, h1, List.nil_append,
        List.filter_cons_of_pos (by simp [hrt])]
    have hcard : bookmarkCard (dfa ++ r :: dfb) t =
        some { title := r.title, genres := r.genres, score := r.score,
               similarity := 1, synopsis := r.synopsis, image_url := r.image_url } := by
      rw [bookmarkCard, hfil]
      rfl
    exact ⟨_, hcard, hrt⟩
  · intro df t
    rw [bookmarkCard, Option.map_eq_none', List.head?_eq_none_iff,
      List.filter_eq_nil_iff]
    constructor <;> intro h x hx
    · simpa using h x hx
    · simp [h x hx]

/-- Witness for C10: the exact-case bookmark resolves to its card while the
lowercased variant of the same title fails. -/
theorem C10_bookmark_case_sensitive_witness :
    (∃ c, bookmarkCard ([] ++ narutoRow :: []) "Naruto" = some c ∧ c.title = "Naruto") ∧
    bookmarkCard [narutoRow] "naruto" = none :=
  ⟨C10_bookmark_case_sensitive.1 [] [] narutoRow "Naruto" (by simp) rfl,
   C10_bookmark_case_sensitive.2.2⟩

/-- C2: resolution of a user query against stored catalog titles is a
case-insensitive exact match: whenever some catalog row's title equals the
query up to letter case, the recommender's resolution finds an index whose row
matches the query case-insensitively, and the caller's lowercased metadata
lookup likewise returns a row matching the query case-insensitively. -/
theorem C2_case_insensitive (df : List AnimeRow) (query : String) (r0 : AnimeRow)
    (hr0 : r0 ∈ df) (hm : lower r0.title = lower query) :
    (∃ j, resolveIndex query df = some j ∧
      ∃ hj : j < df.length, lower (df.get ⟨j, hj⟩).title = lower query) ∧
    (∃ r, selectedInfo df query = some r ∧ lower r.title = lower query) := by
  constructor
  · have hex : ∃ x ∈ df, (lower x.title == lower query) = true :=
      ⟨r0, hr0, by simp [hm]⟩
    have hsome : resolveIndex query df =
        some (df.findIdx (fun r => lower r.title == lower query)) :=
      List.findIdx?_eq_some_of_exists hex
    have hlt := List.findIdx_lt_length_of_exists hex
    refine ⟨_, hsome, hlt, ?_⟩
    have hp := @List.findIdx_getElem _ (fun r => lower r.title == lower query) df hlt
    rw [List.get_eq_getElem]
    simpa using hp
  · rcases hfl : df.filter (fun r => lower r.title == lower query) with _ | ⟨a, rest⟩
    · exfalso
      have := List.filter_eq_nil_iff.mp hfl r0 hr0
      simp [hm] at this
    · refine ⟨a, ?_, ?_⟩
      · rw [selectedInfo, hfl]
        rfl
      · have ha : a ∈ df.filter (fun r => lower r.title == lower query) := by
          rw [hfl]
          exact List.mem_cons_self a rest
        simpa using (List.mem_filter.mp ha).2

/-- Witness for C2: the all-caps query "NARUTO" resolves to the stored title
"Naruto" in both lookups. -/
theorem C2_case_insensitive_witness :
    (∃ j, resolveIndex "NARUTO" [narutoRow, sasukeRow] = some j ∧
      ∃ hj : j < [narutoRow, sasukeRow].length,
        lower ([narutoRow, sasukeRow].get ⟨j, hj⟩).title = lower "NARUTO") ∧
    (∃ r, selectedInfo [narutoRow, sasukeRow] "NARUTO" = some r ∧
      lower r.title = lower "NARUTO") :=
  C2_case_insensitive [narutoRow, sasukeRow] "NARUTO" narutoRow
    (List.mem_cons_self _ _) (by decide)

/-- C5: when the query resolves, `recommend_anime` with `top_n ≥ 1` returns a
successful ranked list of exactly `min top_n (catalog size − 1)` entries —
truncated to `top_n`, or all available other items when fewer exist, with no
error — and the caller's slider keeps every requested count within [1, 10]. -/
theorem C5_result_length {α : Type} [LinearOrder α] (query : String)
    (mat : ℕ → ℕ → α) (df : List AnimeRow) (top_n : ℕ) (htop : 1 ≤ top_n)
    (hfound : ∃ r ∈ df, lower r.title = lower query) :
    (∃ rows, recommend_anime query mat df top_n = Sum.inr rows ∧
        rows.length = min top_n (df.length - 1)) ∧
    (∀ v : ℕ, 1 ≤ sliderClamp v ∧ sliderClamp v ≤ 10) := by
  constructor
  · obtain ⟨r0, hr0, hm⟩ := hfound
    have hex : ∃ x ∈ df, (lower x.title == lower query) = true :=
      ⟨r0, hr0, by simp [hm]⟩
    have hsome : resolveIndex query df =
        some (df.findIdx (fun r => lower r.title == lower query)) :=
      List.findIdx?_eq_some_of_exists hex
    have hlt := List.findIdx_lt_length_of_exists hex
    refine ⟨((((List.range df.length).filter
          (fun j => j != df.findIdx (fun r => lower r.title == lower query))).map
          (fun j => (df.getD j default,
            mat (df.findIdx (fun r => lower r.title == lower query)) j))).mergeSort
          (fun a b => decide (b.2 ≤ a.2))).take top_n, ?_, ?_⟩
    · simp only [recommend_anime, hsome]
    · rw [List.length_take, List.length_mergeSort, List.length_map,
        ← List.Nodup.erase_eq_filter (List.nodup_range df.length),
        List.length_erase_of_mem (List.mem_range.mpr hlt), List.length_range]
  · intro v
    unfold sliderClamp
    omega

/-- Witness for C5: requesting 5 recommendations against a catalog with one
other item returns exactly that one item. -/
theorem C5_result_length_witness :
    ∃ rows, recommend_anime "naruto" (fun _ _ => (0 : ℚ)) [narutoRow, sasukeRow] 5 =
        Sum.inr rows ∧
      rows.length = min 5 ([narutoRow, sasukeRow].length - 1) :=
  (C5_result_length "naruto" (fun _ _ => (0 : ℚ)) [narutoRow, sasukeRow] 5
    (by decide) ⟨narutoRow, List.mem_cons_self _ _, by decide⟩).1

/-- C6: the similarity computed for a pair of description vectors equals
`dot(a,b) / (norm(a) * norm(b))` whenever both norms are non-zero and equals 0
whenever either norm is 0; in particular an all-zero (empty-description)
vector has similarity 0 against anything, so no division by zero occurs. -/
theorem C6_cosine_zero_norm (a b : List ℝ) :
    (vecNorm a ≠ 0 → vecNorm b ≠ 0 →
      cosineSim a b = dotProd a b / (vecNorm a * vecNorm b)) ∧
    (vecNorm a = 0 ∨ vecNorm b = 0 → cosineSim a b = 0) ∧
    ((∀ x ∈ a, x = 0) → cosineSim a b = 0) := by
  have hzero : vecNorm a = 0 ∨ vecNorm b = 0 → cosineSim a b = 0 := by
    intro h
    rcases h with h | h
    · rw [cosineSim, h, zero_mul, div_zero]
    · rw [cosineSim, h, mul_zero, div_zero]
  refine ⟨fun _ _ => rfl, hzero, fun hall => ?_⟩
  apply hzero
  left
  have hdot : dotProd a a = 0 := by
    rw [dotProd, List.zipWith_same]
    refine List.sum_eq_zero fun x hx => ?_
    obtain ⟨y, hy, rfl⟩ := List.mem_map.mp hx
    rw [hall y hy, mul_zero]
  rw [vecNorm, hdot, Real.sqrt_zero]

/-- Witness for C6: the zero vector has similarity 0 against a non-zero
vector. -/
theorem C6_cosine_zero_norm_witness : cosineSim [(0 : ℝ)] [(1 : ℝ)] = 0 :=
  (C6_cosine_zero_norm [(0 : ℝ)] [(1 : ℝ)]).2.2 (fun x hx => by simpa using hx)

/-- The dot product of description vectors is commutative. -/
theorem dotProd_comm (a b : List ℝ) : dotProd a b = dotProd b a := by
  rw [dotProd, dotProd, List.zipWith_comm_of_comm (· * ·) mul_comm]

/-- C7: the similarity matrix built by `build_model` is symmetric: entry (i, j)
always equals entry (j, i). -/
theorem C7_matrix_symm (vectors : List (List ℝ)) (i j : ℕ) :
    build_model vectors i j = build_model vectors j i := by
  unfold build_model
  rw [cosineSim, cosineSim, dotProd_comm, mul_comm]
